import Mathlib

/-!
Verification of the session/configuration core of Keeper Commander
(`keepercommander/params.py` and `keepercommander/__main__.py`).

The Python code is shallowly embedded: each class becomes a structure,
each method a Lean function.  Dynamically typed configuration values are
modelled by the inductive `PyVal`; fallible Python code (assertions,
attribute errors, base64 decoding errors) is modelled with
`Except String`.
-/

/-- Model of a dynamically typed Python/JSON value as it can appear in the
parsed `config.json` mapping or in keyword arguments. -/
inductive PyVal where
  | none
  | bool (b : Bool)
  | int (n : Int)
  | str (s : String)
  | list (xs : List PyVal)
  | dict (xs : List (String × PyVal))
deriving Inhabited

/-- Python truthiness of a `PyVal` (`if v:`). -/
def pyTruthy : PyVal → Bool
  | .none => false
  | .bool b => b
  | .int n => decide (n ≠ 0)
  | .str s => decide (s ≠ "")
  | .list xs => !xs.isEmpty
  | .dict xs => !xs.isEmpty

/-- Whether a `PyVal` is a mapping (`type(v) is dict`). -/
def isDictVal : PyVal → Bool
  | .dict _ => true
  | _ => false

/-- Whether a `PyVal` is a string (`type(v) is str`). -/
def isStrVal : PyVal → Bool
  | .str _ => true
  | _ => false

/-- Lookup in an association-list model of a Python dict (`d.get(k)` /
`d[k]` for a present key). -/
def lookupPy (xs : List (String × PyVal)) (k : String) : Option PyVal :=
  (xs.find? (fun kv => kv.1 == k)).map (fun kv => kv.2)

/-- ASCII uppercase of one character (the fragment of Python
`str.upper` exercised by region names and hosts). -/
def pyUpperChar (c : Char) : Char :=
  if 'a' ≤ c ∧ c ≤ 'z' then Char.ofNat (c.toNat - 32) else c

/-- ASCII lowercase of one character (the fragment of Python
`str.lower` exercised by email addresses and hosts). -/
def pyLowerChar (c : Char) : Char :=
  if 'A' ≤ c ∧ c ≤ 'Z' then Char.ofNat (c.toNat + 32) else c

/-- Model of Python `s.upper()` on ASCII text. -/
def pyUpper (s : String) : String :=
  String.mk (s.data.map pyUpperChar)

/-- Model of Python `s.lower()` on ASCII text. -/
def pyLower (s : String) : String :=
  String.mk (s.data.map pyLowerChar)

/-- Model of Python `s.startswith(pre)`. -/
def pyStartsWith (s pre : String) : Bool :=
  pre.data.isPrefixOf s.data

/-- Python equality test `v == n` between a dynamic value and an int
literal.  In Python, `True == 1` and `False == 0`; strings, lists, dicts
and `None` never equal an int. -/
def pyEqInt (v : PyVal) (n : Int) : Bool :=
  match v with
  | .int m => decide (m = n)
  | .bool b => decide ((if b then (1 : Int) else 0) = n)
  | _ => false

/-- Value of one base64 character in the table used by
`base64.urlsafe_b64decode` (which maps `-`/`_` to `+`/`/` before
decoding, so both alphabets are accepted). -/
def b64val (c : Char) : Option Nat :=
  if 'A' ≤ c ∧ c ≤ 'Z' then some (c.toNat - 65)
  else if 'a' ≤ c ∧ c ≤ 'z' then some (c.toNat - 97 + 26)
  else if '0' ≤ c ∧ c ≤ '9' then some (c.toNat - 48 + 52)
  else if c = '+' ∨ c = '-' then some 62
  else if c = '/' ∨ c = '_' then some 63
  else none

/-- Core loop of CPython `binascii.a2b_base64` in non-strict mode:
characters outside the alphabet are discarded, `=` at quad position
at least 2 counts as padding and a full pad sequence terminates
decoding, a final quad position of 1 is an invalid length and 2 or 3 is
missing padding. -/
def a2bBase64 (cs : List Char) (quadPos leftchar pads : Nat) (acc : List Nat) :
    Except String (List Nat) :=
  match cs with
  | [] =>
    if quadPos = 0 then .ok acc
    else if quadPos = 1 then .error "binascii.Error: invalid base64-encoded string"
    else .error "binascii.Error: incorrect padding"
  | c :: rest =>
    if c = '=' then
      if quadPos ≥ 2 then
        if quadPos + (pads + 1) ≥ 4 then .ok acc
        else a2bBase64 rest quadPos leftchar (pads + 1) acc
      else a2bBase64 rest quadPos leftchar pads acc
    else
      match b64val c with
      | Option.none => a2bBase64 rest quadPos leftchar pads acc
      | some v =>
        match quadPos with
        | 0 => a2bBase64 rest 1 v 0 acc
        | 1 => a2bBase64 rest 2 ((leftchar * 64 + v) % 16) 0 (acc ++ [(leftchar * 64 + v) / 16])
        | 2 => a2bBase64 rest 3 ((leftchar * 64 + v) % 4) 0 (acc ++ [(leftchar * 64 + v) / 4])
        | _ => a2bBase64 rest 0 0 0 (acc ++ [leftchar * 64 + v])

/-- Model of `base64.urlsafe_b64decode` applied to a `str`: non-ASCII
input raises `ValueError`, otherwise the bytes are decoded by
`binascii.a2b_base64` in non-strict mode. -/
def urlsafe_b64decode (s : String) : Except String (List Nat) :=
  if s.toList.all (fun c => c.toNat ≤ 127) then a2bBase64 s.toList 0 0 0 []
  else .error "ValueError: string argument should contain only ASCII characters"

/-- Characters allowed in a URL scheme after the initial letter
(`urllib.parse.scheme_chars`). -/
def isSchemeChar (c : Char) : Bool :=
  c.isAlpha || c.isDigit || c = '+' || c = '-' || c = '.'

/-- Remainder of a URL after stripping a leading `scheme:` prefix, when a
well-formed scheme is present (part of `urllib.parse.urlparse`). -/
def splitSchemeRest (s : String) : String :=
  let cs := s.toList
  let pre := cs.takeWhile (fun c => c ≠ ':')
  match pre with
  | [] => s
  | c :: _ =>
    if pre.length < cs.length ∧ c.isAlpha ∧ pre.all isSchemeChar then
      String.mk (cs.drop (pre.length + 1))
    else s

/-- The `netloc` component returned by `urllib.parse.urlparse`: present
only when the remainder after the scheme starts with `//`, and extends to
the next `/`, `?` or `#`. -/
def urlparseNetloc (s : String) : String :=
  let rest := (splitSchemeRest s).data
  if ['/', '/'].isPrefixOf rest then
    String.mk ((rest.drop 2).takeWhile (fun c => c ≠ '/' ∧ c ≠ '?' ∧ c ≠ '#'))
  else ""

/-- The `KeeperRegion` enum of `params.py`. -/
inductive KeeperRegion where
  | COM
  | EU
deriving Inhabited, DecidableEq

/-- The `.name` attribute of a `KeeperRegion` enum member. -/
def KeeperRegion.name : KeeperRegion → String
  | .COM => "COM"
  | .EU => "EU"

/-- The fixed `__REGION_SERVERS` table of `RestApiContext`. -/
def REGION_SERVERS : KeeperRegion → String
  | .COM => "keepersecurity.com"
  | .EU => "keepersecurity.eu"

/-- Lookup `KeeperRegion[s]` by member name, as `Option` (the source
wraps the lookup in `try`/`except`). -/
def keeperRegionLookup (s : String) : Option KeeperRegion :=
  if s = "COM" then some KeeperRegion.COM
  else if s = "EU" then some KeeperRegion.EU
  else none

/-- The linear scan of `__REGION_SERVERS` matching a lowercased host
name, in the dict iteration order COM, EU. -/
def findRegionByHost (h : String) : Option KeeperRegion :=
  if REGION_SERVERS KeeperRegion.COM = h then some KeeperRegion.COM
  else if REGION_SERVERS KeeperRegion.EU = h then some KeeperRegion.EU
  else none

/-- The `region` argument of `RestApiContext.__init__`: either a value
coming from the parsed JSON configuration (dynamically typed) or an
actual `KeeperRegion` enum member (the declared default). -/
inductive RegionArg where
  | py (v : PyVal)
  | enum (r : KeeperRegion)

/-- State of a `RestApiContext` after construction.  `server_key_id`,
`device_id` and `store_server_key` back the name-mangled private fields;
`store_server_key` is the dirty flag set by the `device_id` and
`server_key_id` setters. -/
structure RestApiContext where
  region : KeeperRegion
  transmission_key : Option String
  server_key_id : Int
  locale : String
  device_id : Option (List Nat)
  store_server_key : Bool
deriving Inhabited

/-- The region-selection logic of `RestApiContext.__init__`, returning
the chosen region together with the number of warnings logged, or the
failing assertion.  A truthy non-string, non-enum region value hits
`assert type(region) is KeeperRegion`. -/
def resolveRegionArg : RegionArg → Option String → Except String (KeeperRegion × Nat)
  | .enum r, _ => .ok (r, 0)
  | .py v, serverKw =>
    if pyTruthy v then
      match v with
      | .str s =>
        match keeperRegionLookup (pyUpper s) with
        | some r => .ok (r, 0)
        | Option.none => .ok (KeeperRegion.COM, 1)
      | _ => .error "AssertionError: region is neither str nor KeeperRegion"
    else
      match serverKw with
      | some u =>
        if u ≠ "" then
          match findRegionByHost (pyLower (urlparseNetloc u)) with
          | some r => .ok (r, 0)
          | Option.none => .ok (KeeperRegion.COM, 1)
        else .ok (KeeperRegion.COM, 0)
      | Option.none => .ok (KeeperRegion.COM, 0)

/-- The `RestApiContext` record built by `__init__` once a region has
been chosen. -/
def mkRestApiContext (r : KeeperRegion) (deviceId : Option (List Nat)) : RestApiContext :=
  { region := r
    transmission_key := Option.none
    server_key_id := 1
    locale := "en_US"
    device_id := deviceId
    store_server_key := false }

/-- Model of `RestApiContext.__init__(region, locale, device_id,
**kwargs)` with `kwargs = ⟨server⟩`, returning the constructed context
and the number of warnings logged. -/
def RestApiContext.init (region : RegionArg) (serverKw : Option String)
    (deviceId : Option (List Nat)) : Except String (RestApiContext × Nat) :=
  match resolveRegionArg region serverKw with
  | .error e => .error e
  | .ok (r, w) => .ok (mkRestApiContext r deviceId, w)

/-- The derived `server_base` property:
`urlunparse(('https', REGION_SERVERS[region], '/api/rest/', ...))`. -/
def RestApiContext.server_base (c : RestApiContext) : String :=
  "https://" ++ REGION_SERVERS c.region ++ "/api/rest/"

/-- Assignment to `RestApiContext.server_base`.  The class declares
`server_base = property(__get_server_base)` with no setter, so every
assignment raises `AttributeError`. -/
def RestApiContext.setServerBase (_c : RestApiContext) (_v : String) :
    Except String RestApiContext :=
  .error "AttributeError: property server_base has no setter"

/-- One audit record appended to `event_queue` by
`queue_audit_event`. -/
structure AuditEvent where
  audit_event_type : String
  inputs : List (String × PyVal)
deriving Inhabited

/-- State of a `KeeperParams` object, one field per attribute assigned in
`KeeperParams.__init__`.  `server` backs the name-mangled `__server`;
dict-valued caches are modelled as association lists, the
`pending_share_requests` set as the list of its elements, and
`device_id` as the decoded byte sequence. -/
structure KeeperParams where
  config_filename : String
  config : List (String × PyVal)
  auth_verifier : Option String
  server : String
  user : String
  password : String
  mfa_token : String
  mfa_type : String
  commands : List String
  plugins : List PyVal
  session_token : Option String
  salt : Option String
  iterations : Int
  data_key : Option String
  rsa_key : Option String
  revision : Int
  record_cache : List (String × PyVal)
  meta_data_cache : List (String × PyVal)
  shared_folder_cache : List (String × PyVal)
  team_cache : List (String × PyVal)
  key_cache : List (String × PyVal)
  available_team_cache : Option (List PyVal)
  subfolder_cache : List (String × PyVal)
  subfolder_record_cache : List (String × PyVal)
  non_shared_data_cache : List (String × PyVal)
  root_folder : Option PyVal
  current_folder : Option PyVal
  folder_cache : List (String × PyVal)
  debug : Bool
  timedelay : Int
  sync_data : Bool
  license : Option (List (String × PyVal))
  settings : Option PyVal
  enforcements : Option PyVal
  enterprise : Option PyVal
  enterprise_id : Int
  msp_tree_key : Option String
  prepare_commands : Bool
  batch_mode : Bool
  device_id : List Nat
  rest_context : RestApiContext
  pending_share_requests : List String
  environment_variables : List (String × String)
  record_history : List (String × PyVal)
  event_queue : List AuditEvent
  logout_timer : PyVal
  login_v3 : Bool
  clone_code : Option String
  device_token : Option String
  device_private_key : Option String
deriving Inhabited

/-- The keyword arguments of `KeeperParams.__init__`, with defaults.
`region`, `commands` and `plugins` keep their dynamic type because the
constructor type-checks them at runtime; `config` holds the passthrough
`**config` keys not matched by a named parameter. -/
structure CtorArgs where
  config_filename : String := ""
  user : String := ""
  server : Option String := Option.none
  region : PyVal := PyVal.none
  password : String := ""
  timedelay : Int := 0
  mfa_token : String := ""
  mfa_type : String := ""
  commands : PyVal := PyVal.none
  plugins : PyVal := PyVal.none
  debug : Bool := false
  batch_mode : Bool := false
  device_id : String := ""
  logout_timer : PyVal := PyVal.int 0
  login_v3 : Bool := true
  private_key : String := ""
  config : List (String × PyVal) := []

/-- The shape check applied to the `commands` and `plugins` arguments:
`None` becomes `[]`; otherwise `assert type(v) is list` and
`assert all(type(x) is dict for x in v)`. -/
def checkEntriesAreDicts (v : PyVal) : Except String (List PyVal) :=
  match v with
  | .none => .ok []
  | .list xs =>
    if xs.all isDictVal then .ok xs
    else .error "AssertionError: entry is not a dict"
  | _ => .error "AssertionError: value is not a list"

/-- Model of `KeeperParams.__init__`.  The `debug` branch only raises the
process log level (a side effect outside the state); `mfa_type` defaults
to `device_token` when empty (applied twice in the source, with the same
result); `device_id` is decoded by `urlsafe_b64decode(device_id + '==')`
before `RestApiContext` is built; `server` is then replaced by the
resolver's `server_base`.  The supplied `commands` and `plugins` are
only validated: the object starts with empty lists. -/
def KeeperParams.init (a : CtorArgs) : Except String KeeperParams :=
  match checkEntriesAreDicts a.commands with
  | .error e => .error e
  | .ok _cmds =>
    match checkEntriesAreDicts a.plugins with
    | .error e => .error e
    | .ok _plugs =>
      match urlsafe_b64decode (a.device_id ++ "==") with
      | .error e => .error e
      | .ok deviceBytes =>
        match RestApiContext.init (RegionArg.py a.region) a.server (some deviceBytes) with
        | .error e => .error e
        | .ok (rc, _warnings) =>
          .ok
            { config_filename := a.config_filename
              config := a.config
              auth_verifier := Option.none
              server := rc.server_base
              user := pyLower a.user
              password := a.password
              mfa_token := a.mfa_token
              mfa_type := if a.mfa_type = "" then "device_token" else a.mfa_type
              commands := []
              plugins := []
              session_token := Option.none
              salt := Option.none
              iterations := 0
              data_key := Option.none
              rsa_key := Option.none
              revision := 0
              record_cache := []
              meta_data_cache := []
              shared_folder_cache := []
              team_cache := []
              key_cache := []
              available_team_cache := Option.none
              subfolder_cache := []
              subfolder_record_cache := []
              non_shared_data_cache := []
              root_folder := Option.none
              current_folder := Option.none
              folder_cache := []
              debug := false
              timedelay := a.timedelay
              sync_data := true
              license := Option.none
              settings := Option.none
              enforcements := Option.none
              enterprise := Option.none
              enterprise_id := 0
              msp_tree_key := Option.none
              prepare_commands := false
              batch_mode := a.batch_mode
              device_id := deviceBytes
              rest_context := rc
              pending_share_requests := []
              environment_variables := []
              record_history := []
              event_queue := []
              logout_timer := a.logout_timer
              login_v3 := a.login_v3
              clone_code := Option.none
              device_token := Option.none
              device_private_key := some a.private_key }

/-- Model of `KeeperParams.clear_session`.  Every listed attribute is
reassigned or cleared; `logout_timer` is reread from the passthrough
`config` mapping (`self.config.get('logout_timer') or 0`).  The guarded
`if self.folder_cache: self.folder_cache.clear()` has the same net
effect as an unconditional clear.  `config_filename`, `config`,
`server`, `debug`, `timedelay`, `device_id`, `rest_context` and
`login_v3` (whose reset line is commented out in the source) are not
touched. -/
def KeeperParams.clear_session (p : KeeperParams) : KeeperParams :=
  { p with
    auth_verifier := some ""
    user := ""
    password := ""
    mfa_type := "device_token"
    mfa_token := ""
    commands := []
    session_token := Option.none
    salt := Option.none
    iterations := 0
    data_key := Option.none
    rsa_key := Option.none
    revision := 0
    record_cache := []
    meta_data_cache := []
    shared_folder_cache := []
    team_cache := []
    available_team_cache := Option.none
    key_cache := []
    subfolder_cache := []
    subfolder_record_cache := []
    non_shared_data_cache := []
    folder_cache := []
    root_folder := Option.none
    current_folder := Option.none
    sync_data := true
    license := Option.none
    settings := Option.none
    enforcements := Option.none
    enterprise := Option.none
    enterprise_id := 0
    msp_tree_key := Option.none
    prepare_commands := true
    batch_mode := false
    pending_share_requests := []
    environment_variables := []
    record_history := []
    event_queue := []
    logout_timer :=
      match lookupPy p.config "logout_timer" with
      | some v => if pyTruthy v then v else PyVal.int 0
      | Option.none => PyVal.int 0
    clone_code := Option.none
    device_token := Option.none
    device_private_key := Option.none }

/-- The fixed allow-list of `queue_audit_event`. -/
def allowedAuditKeys : List String :=
  ["record_uid", "file_format", "attachment_id", "to_username"]

/-- Model of `KeeperParams.queue_audit_event(name, **kwargs)`: gated on
`self.license and 'account_type' in self.license` and
`self.license['account_type'] == 2`; on success appends one record whose
`inputs` keeps exactly the allow-listed keys of `kwargs`. -/
def KeeperParams.queue_audit_event (p : KeeperParams) (n : String)
    (kwargs : List (String × PyVal)) : KeeperParams :=
  match p.license with
  | some lic =>
    if pyTruthy (PyVal.dict lic) then
      match lookupPy lic "account_type" with
      | some v =>
        if pyEqInt v 2 then
          { p with
            event_queue := p.event_queue ++
              [{ audit_event_type := n
                 inputs := kwargs.filter (fun kv => allowedAuditKeys.contains kv.1) }] }
        else p
      | Option.none => p
    else p
  | Option.none => p

/-- The enqueue gate of `queue_audit_event`, as a standalone predicate on
the `license` field. -/
def auditGate (license : Option (List (String × PyVal))) : Bool :=
  match license with
  | some lic =>
    pyTruthy (PyVal.dict lic) &&
      (match lookupPy lic "account_type" with
       | some v => pyEqInt v 2
       | Option.none => false)
  | Option.none => false

/-- The `region` read accessor of `KeeperParams`.  The source binds it as
`region = property(__get_server)`, so it returns the stored server URL,
not the region name. -/
def KeeperParams.region (p : KeeperParams) : String :=
  p.server

/-- The unused `KeeperParams.__get_region` method, which returns
`self.rest_context.region.name`.  It is dead code: the `region` property
is bound to `__get_server` instead. -/
def KeeperParams.getRegion (p : KeeperParams) : String :=
  p.rest_context.region.name

/-- Model of `KeeperParams.__set_server`: assigns `self.__server` and
then `self.__rest_context.server_base`, which raises because
`server_base` has no setter.  The raise propagates to the caller. -/
def KeeperParams.setServer (p : KeeperParams) (v : String) : Except String KeeperParams :=
  match RestApiContext.setServerBase p.rest_context v with
  | .error e => .error e
  | .ok rc => .ok { p with server := v, rest_context := rc }

/-- The parsed argparse namespace of `__main__.py` (`opts`).  String
options default to `None`; `store_true` switches default to `False`. -/
structure Opts where
  server : Option String := Option.none
  user : Option String := Option.none
  password : Option String := Option.none
  version : Bool := false
  config : Option String := Option.none
  debug : Bool := false
  batch_mode : Bool := false
  login_v3 : Option String := Option.none
  command : Option String := Option.none
  options : List String := []

/-- Python truthiness filter for an optional string argument: `None` and
the empty string are falsy. -/
def truthyOpt (o : Option String) : Option String :=
  match o with
  | some s => if s = "" then Option.none else some s
  | Option.none => Option.none

/-- Characters that `shlex.quote` considers safe: ASCII word characters
plus `@`, `%`, `+`, `=`, `:`, comma, dot, slash and dash. -/
def isShlexSafe (c : Char) : Bool :=
  ('a' ≤ c && c ≤ 'z') || ('A' ≤ c && c ≤ 'Z') || ('0' ≤ c && c ≤ '9') ||
    c ∈ ['_', '@', '%', '+', '=', ':', ',', '.', '/', '-']

/-- Model of `shlex.quote`. -/
def shlexQuote (s : String) : String :=
  if s = "" then "\x27\x27"
  else if s.toList.all isShlexSafe then s
  else "\x27" ++ s.replace "\x27" "\x27\x22\x27\x22\x27" ++ "\x27"

/-- Overlay step `if opts.debug: params.debug = opts.debug` (the log
level juggling is a side effect outside the state). -/
def overlayDebug (p : KeeperParams) (opts : Opts) : KeeperParams :=
  if opts.debug then { p with debug := true } else p

/-- Overlay step `if opts.batch_mode: params.batch_mode = True`. -/
def overlayBatch (p : KeeperParams) (opts : Opts) : KeeperParams :=
  if opts.batch_mode then { p with batch_mode := true } else p

/-- Overlay step `if opts.login_v3: params.login_v3 =
'TRUE'.startswith(str(opts.login_v3).upper())`. -/
def overlayLoginV3 (p : KeeperParams) (opts : Opts) : KeeperParams :=
  match truthyOpt opts.login_v3 with
  | some s => { p with login_v3 := pyStartsWith "TRUE" (pyUpper s) }
  | Option.none => p

/-- Overlay step `if opts.user: params.user = opts.user` (a plain
attribute assignment: unlike the constructor, it does not lowercase). -/
def overlayUser (p : KeeperParams) (opts : Opts) : KeeperParams :=
  match truthyOpt opts.user with
  | some u => { p with user := u }
  | Option.none => p

/-- Overlay step for the password: the flag wins, otherwise a non-empty
`KEEPER_PASSWORD` environment value, otherwise the value already in the
store. -/
def overlayPassword (p : KeeperParams) (opts : Opts) (envPwd : Option String) : KeeperParams :=
  match truthyOpt opts.password with
  | some w => { p with password := w }
  | Option.none =>
    match truthyOpt envPwd with
    | some w => { p with password := w }
    | Option.none => p

/-- The flag/environment overlay block of `main` (`__main__.py` lines
66-93), in source order: debug, batch mode, login v3, server, user,
password.  A truthy `--server` flag assigns
`params.server = 'https://{host}/api/v2/'`, which goes through the
broken `server` setter and raises. -/
def applyOverlays (p : KeeperParams) (opts : Opts) (envPwd : Option String) :
    Except String KeeperParams :=
  let p1 := overlayLoginV3 (overlayBatch (overlayDebug p opts) opts) opts
  match truthyOpt opts.server with
  | some h =>
    match KeeperParams.setServer p1 ("https://" ++ h ++ "/api/v2/") with
    | .error e => .error e
    | .ok p2 => .ok (overlayPassword (overlayUser p2 opts) opts envPwd)
  | Option.none => .ok (overlayPassword (overlayUser p1 opts) opts envPwd)

/-- How `main` hands control onward: printing the version, printing
usage and exiting, handing queued commands to the scheduled runner
(`cli.runcommands`), or entering the interactive/batch loop
(`cli.loop`). -/
inductive BootOutcome where
  | versionExit
  | usageExit
  | runcommands (p : KeeperParams)
  | loop (p : KeeperParams)

/-- The tail of `main` after the usage checks: the `timedelay` handoff,
the one-shot command synthesis (quote and join the command with its
flags, append options after `--`, append `q`, force batch mode) and the
interactive-shell / stdin-batch cases. -/
def restOfMain (params : KeeperParams) (flags2 : List String) (command : Option String)
    (options : List String) : BootOutcome :=
  if params.timedelay ≥ 1 ∧ params.commands ≠ [] then
    .runcommands params
  else if command = some "shell" ∨ command = some "-" then
    .loop (if command = some "-" then { params with batch_mode := true } else params)
  else
    let params :=
      if command.getD "" ≠ "" then
        let flagsStr := String.intercalate " " (flags2.map shlexQuote)
        let optionsStr := String.intercalate " " (options.map shlexQuote)
        let cmdStr := String.intercalate " " [command.getD "", flagsStr]
        let cmdStr := if optionsStr ≠ "" then cmdStr ++ " -- " ++ optionsStr else cmdStr
        { params with commands := params.commands ++ [cmdStr] }
      else params
    .loop { params with commands := params.commands ++ ["q"], batch_mode := true }

/-- Model of `main` in `__main__.py`: construct the store from the
parsed configuration (the `config.json` file read is abstracted to its
parsed result `cfg`), apply the flag/environment overlays, then run the
version check, the `-h` flag rewrite, the packaged-executable shell
default, the usage checks and the command synthesis.  `flags` holds the
unknown arguments from `parse_known_args`. -/
def mainBoot (opts : Opts) (flags : List String) (envPwd : Option String)
    (cfg : CtorArgs) (fromPackage : Bool) : Except String BootOutcome :=
  match KeeperParams.init cfg with
  | .error e => .error e
  | .ok params0 =>
    match applyOverlays params0 opts envPwd with
    | .error e => .error e
    | .ok params =>
      if opts.version then .ok BootOutcome.versionExit
      else
        let fc :=
          match flags with
          | f :: _ => if f = "-h" then (([] : List String), some "?") else (flags, opts.command)
          | [] => (([] : List String), opts.command)
        let flags2 := fc.1
        let command := fc.2
        let command := if command.getD "" = "" ∧ fromPackage then some "shell" else command
        if command.getD "" = "?" ∨ command.getD "" = "" then
          if command.getD "" = "?" ∨ params.commands = [] then .ok BootOutcome.usageExit
          else .ok (restOfMain params flags2 command opts.options)
        else .ok (restOfMain params flags2 command opts.options)

/-- Command queue of the store a `BootOutcome` carries, when any. -/
def outcomeCommands : BootOutcome → Option (List String)
  | .runcommands p => some p.commands
  | .loop p => some p.commands
  | _ => Option.none

/-- Batch-mode flag of the store a `BootOutcome` carries, when any. -/
def outcomeBatch : BootOutcome → Option Bool
  | .runcommands p => some p.batch_mode
  | .loop p => some p.batch_mode
  | _ => Option.none

/-- Whether `KeeperParams.__init__` raises on the given arguments. -/
def initFails (a : CtorArgs) : Bool :=
  match KeeperParams.init a with
  | .error _ => true
  | .ok _ => false

/-- The overlay pipeline of `main` when no `--server` flag is given (the
only path on which `params.server = ...` is not executed). -/
def pipelineNoServer (p : KeeperParams) (opts : Opts) (envPwd : Option String) : KeeperParams :=
  overlayPassword (overlayUser (overlayLoginV3 (overlayBatch (overlayDebug p opts) opts) opts) opts)
    opts envPwd

/-- Constructor arguments with `commands=[{"not": "a problem"}]`. -/
def goodCommandsArgs : CtorArgs :=
  { commands := PyVal.list [PyVal.dict [("not", PyVal.str "a problem")]] }

/-- Constructor arguments with `commands=["not-a-mapping"]`. -/
def badCommandsArgs : CtorArgs :=
  { commands := PyVal.list [PyVal.str "not-a-mapping"] }

/-- Constructor arguments with `plugins=["nope"]`. -/
def badPluginsArgs : CtorArgs :=
  { plugins := PyVal.list [PyVal.str "nope"] }

/-- Constructor arguments with `region=5`: `commands` and `plugins` are
absent and shape-valid, yet construction fails on the region type
assertion. -/
def regionFiveArgs : CtorArgs :=
  { region := PyVal.int 5 }

/-- The store built from `goodCommandsArgs`. -/
def p10 : KeeperParams :=
  (KeeperParams.init goodCommandsArgs).toOption.getD default

/-- The argparse namespace for the invocation `keeper list`. -/
def listOpts : Opts :=
  { command := some "list" }

/-- A configuration setting `user`, `password`, `debug`, `batch_mode`
and `login_v3`. -/
def cfgPrecedence : CtorArgs :=
  { user := "Config@User.COM", password := "configpw", batch_mode := false,
    login_v3 := true, debug := true }

/-- Flags overriding `user`, `debug` and `login_v3` on top of
`cfgPrecedence`; the password comes from the environment. -/
def optsPrecedence : Opts :=
  { user := some "Flag@User", debug := true, login_v3 := some "false" }

/-- The store `cfgPrecedence` constructs. -/
def p0Precedence : KeeperParams :=
  (KeeperParams.init cfgPrecedence).toOption.getD default

/-- The store after the flag/environment overlay on `p0Precedence`. -/
def pPrecedence : KeeperParams :=
  pipelineNoServer p0Precedence optsPrecedence (some "envpw")

/-- A configuration that sets `debug`, a mixed-case `user` and a
non-Keeper `server`, with no flags and no environment overrides. -/
def cfgConfigOnly : CtorArgs :=
  { user := "Alice@Example.COM", server := some "https://my.example.org/", debug := true }

/-- The store `cfgConfigOnly` constructs. -/
def p0ConfigOnly : KeeperParams :=
  (KeeperParams.init cfgConfigOnly).toOption.getD default

/-- A store whose license indicates an enterprise account
(`account_type == 2`). -/
def pEnterprise : KeeperParams :=
  { (default : KeeperParams) with license := some [("account_type", PyVal.int 2)] }

/-- Helper: a successful construction determines the overlay-relevant
fields of the store: `user` is the lowercased argument, `password`,
`batch_mode` and `login_v3` are taken verbatim, `debug` is always
`false` (the constructor only raises the log level), and the supplied
`commands` and `plugins` are dropped. -/
theorem init_ok_fields (a : CtorArgs) (p : KeeperParams) (h : KeeperParams.init a = .ok p) :
    p.user = pyLower a.user ∧ p.password = a.password ∧ p.batch_mode = a.batch_mode ∧
    p.login_v3 = a.login_v3 ∧ p.debug = false ∧ p.commands = [] ∧ p.plugins = [] := by
  unfold KeeperParams.init at h
  split at h
  · simp at h
  · split at h
    · simp at h
    · split at h
      · simp at h
      · split at h
        · simp at h
        · cases h
          exact ⟨rfl, rfl, rfl, rfl, rfl, rfl, rfl⟩

/-- Claim C1: `clear_session` resets every authentication-derived field
and cache to its empty or `None` value (session token, salt, iterations,
data key, RSA key, auth verifier, device token, device private key, all
entity caches, commands, event queue, pending share requests) and leaves
`config_filename`, the passthrough `config` mapping, `login_v3` and
`device_id` unchanged. -/
theorem clear_session_resets_and_preserves (p : KeeperParams) :
    (p.clear_session).session_token = Option.none ∧
    (p.clear_session).salt = Option.none ∧
    (p.clear_session).iterations = 0 ∧
    (p.clear_session).data_key = Option.none ∧
    (p.clear_session).rsa_key = Option.none ∧
    (p.clear_session).auth_verifier = some "" ∧
    (p.clear_session).device_token = Option.none ∧
    (p.clear_session).device_private_key = Option.none ∧
    (p.clear_session).record_cache = [] ∧
    (p.clear_session).meta_data_cache = [] ∧
    (p.clear_session).shared_folder_cache = [] ∧
    (p.clear_session).team_cache = [] ∧
    (p.clear_session).key_cache = [] ∧
    (p.clear_session).available_team_cache = Option.none ∧
    (p.clear_session).subfolder_cache = [] ∧
    (p.clear_session).subfolder_record_cache = [] ∧
    (p.clear_session).non_shared_data_cache = [] ∧
    (p.clear_session).folder_cache = [] ∧
    (p.clear_session).commands = [] ∧
    (p.clear_session).event_queue = [] ∧
    (p.clear_session).pending_share_requests = [] ∧
    (p.clear_session).config_filename = p.config_filename ∧
    (p.clear_session).config = p.config ∧
    (p.clear_session).login_v3 = p.login_v3 ∧
    (p.clear_session).device_id = p.device_id :=
  ⟨rfl, rfl, rfl, rfl, rfl, rfl, rfl, rfl, rfl, rfl, rfl, rfl, rfl, rfl, rfl, rfl, rfl, rfl,
    rfl, rfl, rfl, rfl, rfl, rfl, rfl⟩

/-- Claim C2: `clear_session` is idempotent: applying it twice yields
exactly the state of applying it once. -/
theorem clear_session_idempotent (p : KeeperParams) :
    (p.clear_session).clear_session = p.clear_session :=
  rfl

/-- Claim C8 (code bug): on a freshly constructed store, the `region`
accessor returns the stored base URL, because the source binds
`region = property(__get_server)`; the intended reader `__get_region`
(kept here as `getRegion`) would return the region name `COM`, but it is
dead code. -/
theorem region_accessor_returns_url :
    (KeeperParams.init {}).map KeeperParams.region = .ok "https://keepersecurity.com/api/rest/" ∧
    (KeeperParams.init {}).map KeeperParams.getRegion = .ok "COM" ∧
    ("https://keepersecurity.com/api/rest/" : String) ≠ "COM" :=
  ⟨rfl, rfl, by decide⟩

/-- Claim C9 (code bug): every assignment through the `server` accessor
raises, because `__set_server` assigns
`self.__rest_context.server_base`, a property declared without a setter;
in particular it raises on a freshly constructed store. -/
theorem set_server_always_raises :
    (KeeperParams.init {}).bind
        (fun p => p.setServer "https://keepersecurity.com/api/v2/") =
      .error "AttributeError: property server_base has no setter" ∧
    ∀ (p : KeeperParams) (v : String),
      p.setServer v = .error "AttributeError: property server_base has no setter" :=
  ⟨rfl, fun _ _ => rfl⟩

/-- Claim C7 counterexample: invoking bootstrap with positional command
`list` and no flags or options queues `["list ", "q"]` (the command is
joined with its empty flag string, leaving a trailing space), which is
not the claimed `["list", "q"]`. -/
theorem one_shot_list_counterexample :
    (mainBoot listOpts [] Option.none {} false).map outcomeCommands =
      .ok (some ["list ", "q"]) ∧
    (some ["list ", "q"] : Option (List String)) ≠ some ["list", "q"] :=
  ⟨rfl, by decide⟩

/-- Claim C7 as amended: invoking bootstrap with positional command
`list` and no flags or options produces the two-entry command queue
`["list ", "q"]` (the one-shot command keeps a trailing space from
joining with the empty flag string) and forces `batch_mode = true`. -/
theorem one_shot_list_amended :
    (mainBoot listOpts [] Option.none {} false).map outcomeCommands =
      .ok (some ["list ", "q"]) ∧
    (mainBoot listOpts [] Option.none {} false).map outcomeBatch = .ok (some true) :=
  ⟨rfl, rfl⟩

/-- Claim C6 counterexample: construction with `region=5` fails even
though `commands` and `plugins` are absent (shape-valid), refuting the
claim that construction fails only for non-mapping `commands` or
`plugins` entries. -/
theorem construction_failure_counterexample :
    KeeperParams.init regionFiveArgs =
      .error "AssertionError: region is neither str nor KeeperRegion" ∧
    regionFiveArgs.commands = PyVal.none ∧ regionFiveArgs.plugins = PyVal.none :=
  ⟨rfl, rfl, rfl⟩

/-- Claim C10: whenever construction succeeds, the store's `commands`
and `plugins` are empty lists regardless of the (shape-valid) sequences
supplied: the arguments are validated but never retained. -/
theorem construction_drops_commands_and_plugins (a : CtorArgs) (p : KeeperParams)
    (h : KeeperParams.init a = .ok p) : p.commands = [] ∧ p.plugins = [] :=
  ⟨(init_ok_fields a p h).2.2.2.2.2.1, (init_ok_fields a p h).2.2.2.2.2.2⟩

/-- Claim C10 witness: the store built from a one-mapping `commands`
list has empty `commands` and `plugins`. -/
theorem construction_drops_witness : p10.commands = [] ∧ p10.plugins = [] :=
  construction_drops_commands_and_plugins goodCommandsArgs p10 rfl

/-- Claim C6 as amended: construction with `commands=[{"not": "a
problem"}]` succeeds and with `commands=["not-a-mapping"]` fails with
the shape assertion; any non-mapping entry in `commands` or `plugins`
fails construction; but the failure is not limited to those fields: any
truthy non-string `region` value also fails construction. -/
theorem construction_shape_amended :
    initFails goodCommandsArgs = false ∧
    KeeperParams.init badCommandsArgs = .error "AssertionError: entry is not a dict" ∧
    (∀ (a : CtorArgs) (xs : List PyVal), a.commands = PyVal.list xs →
      xs.all isDictVal = false → initFails a = true) ∧
    (∀ (a : CtorArgs) (xs : List PyVal), a.plugins = PyVal.list xs →
      xs.all isDictVal = false → initFails a = true) ∧
    (∀ (a : CtorArgs), pyTruthy a.region = true → isStrVal a.region = false →
      initFails a = true) := by
  refine ⟨rfl, rfl, ?_, ?_, ?_⟩
  · intro a xs h1 h2
    simp [initFails, KeeperParams.init, checkEntriesAreDicts, h1, h2]
  · intro a xs h1 h2
    cases hc : checkEntriesAreDicts a.commands with
    | error e => simp [initFails, KeeperParams.init, hc]
    | ok l =>
      have hp : checkEntriesAreDicts a.plugins =
          Except.error "AssertionError: entry is not a dict" := by
        rw [h1]
        simp only [checkEntriesAreDicts]
        rw [h2]
        simp
      simp [initFails, KeeperParams.init, hc, hp]
  · intro a h1 h2
    cases hc : checkEntriesAreDicts a.commands with
    | error e => simp [initFails, KeeperParams.init, hc]
    | ok l =>
      cases hp : checkEntriesAreDicts a.plugins with
      | error e => simp [initFails, KeeperParams.init, hc, hp]
      | ok l2 =>
        cases hd : urlsafe_b64decode (a.device_id ++ "==") with
        | error e => simp [initFails, KeeperParams.init, hc, hp, hd]
        | ok bytes =>
          cases hr : a.region with
          | none => rw [hr] at h1; simp [pyTruthy] at h1
          | str s => rw [hr] at h2; simp [isStrVal] at h2
          | bool b =>
            rw [hr] at h1
            simp [initFails, KeeperParams.init, hc, hp, hd, hr, RestApiContext.init,
              resolveRegionArg, h1]
          | int n =>
            rw [hr] at h1
            simp [initFails, KeeperParams.init, hc, hp, hd, hr, RestApiContext.init,
              resolveRegionArg, h1]
          | list xs =>
            rw [hr] at h1
            simp [initFails, KeeperParams.init, hc, hp, hd, hr, RestApiContext.init,
              resolveRegionArg, h1]
          | dict xs =>
            rw [hr] at h1
            simp [initFails, KeeperParams.init, hc, hp, hd, hr, RestApiContext.init,
              resolveRegionArg, h1]

/-- Claim C6 witness: a `plugins` list with a non-mapping entry fails
construction. -/
theorem construction_shape_witness : initFails badPluginsArgs = true :=
  construction_shape_amended.2.2.2.1 badPluginsArgs [PyVal.str "nope"] rfl rfl

/-- Claim C3: a string region hint naming a supported region
case-insensitively selects that region (whose table entry is the
documented host) with no warning; any other non-empty string logs
exactly one warning and selects the default region COM; resolution
returns normally for every string hint. -/
theorem region_hint_resolution (s : String) (srv : Option String) (d : Option (List Nat)) :
    (pyUpper s = "COM" →
      RestApiContext.init (RegionArg.py (PyVal.str s)) srv d =
        .ok (mkRestApiContext KeeperRegion.COM d, 0)) ∧
    (pyUpper s = "EU" →
      RestApiContext.init (RegionArg.py (PyVal.str s)) srv d =
        .ok (mkRestApiContext KeeperRegion.EU d, 0)) ∧
    (s ≠ "" → pyUpper s ≠ "COM" → pyUpper s ≠ "EU" →
      RestApiContext.init (RegionArg.py (PyVal.str s)) srv d =
        .ok (mkRestApiContext KeeperRegion.COM d, 1)) ∧
    (∃ r, RestApiContext.init (RegionArg.py (PyVal.str s)) srv d = .ok r) ∧
    REGION_SERVERS KeeperRegion.COM = "keepersecurity.com" ∧
    REGION_SERVERS KeeperRegion.EU = "keepersecurity.eu" := by
  refine ⟨?_, ?_, ?_, ?_, rfl, rfl⟩
  · intro h
    have hs : s ≠ "" := by
      intro he
      rw [he] at h
      exact absurd h (by decide)
    simp [RestApiContext.init, resolveRegionArg, pyTruthy, hs, keeperRegionLookup, h]
  · intro h
    have hs : s ≠ "" := by
      intro he
      rw [he] at h
      exact absurd h (by decide)
    simp [RestApiContext.init, resolveRegionArg, pyTruthy, hs, keeperRegionLookup, h]
  · intro hs h1 h2
    simp [RestApiContext.init, resolveRegionArg, pyTruthy, hs, keeperRegionLookup, h1, h2]
  · by_cases hs : s = ""
    · subst hs
      rcases srv with _ | u
      · exact ⟨(mkRestApiContext KeeperRegion.COM d, 0), rfl⟩
      · by_cases hu : u = ""
        · subst hu
          exact ⟨(mkRestApiContext KeeperRegion.COM d, 0), rfl⟩
        · cases hf : findRegionByHost (pyLower (urlparseNetloc u)) with
          | none =>
            exact ⟨(mkRestApiContext KeeperRegion.COM d, 1), by
              simp [RestApiContext.init, resolveRegionArg, pyTruthy, hu, hf]⟩
          | some r =>
            exact ⟨(mkRestApiContext r d, 0), by
              simp [RestApiContext.init, resolveRegionArg, pyTruthy, hu, hf]⟩
    · cases hl : keeperRegionLookup (pyUpper s) with
      | none =>
        exact ⟨(mkRestApiContext KeeperRegion.COM d, 1), by
          simp [RestApiContext.init, resolveRegionArg, pyTruthy, hs, hl]⟩
      | some r =>
        exact ⟨(mkRestApiContext r d, 0), by
          simp [RestApiContext.init, resolveRegionArg, pyTruthy, hs, hl]⟩

/-- Claim C3 witness: the lowercase hint `eu` selects region EU with no
warning, and the unrecognized hint `bogus` selects COM with exactly one
warning. -/
theorem region_hint_witness :
    RestApiContext.init (RegionArg.py (PyVal.str "eu")) Option.none Option.none =
      .ok (mkRestApiContext KeeperRegion.EU Option.none, 0) ∧
    RestApiContext.init (RegionArg.py (PyVal.str "bogus")) Option.none Option.none =
      .ok (mkRestApiContext KeeperRegion.COM Option.none, 1) :=
  ⟨(region_hint_resolution "eu" Option.none Option.none).2.1 (by decide),
   (region_hint_resolution "bogus" Option.none Option.none).2.2.1 (by decide) (by decide)
     (by decide)⟩

/-- Claim C4: `queue_audit_event` is a no-op when the license gate fails
(no license, empty or non-enterprise license); when the gate holds it
appends exactly one record whose `inputs` are the attributes filtered to
the allow-list, keeping exactly the allow-listed keys. -/
theorem queue_audit_event_spec (p : KeeperParams) (n : String)
    (kwargs : List (String × PyVal)) :
    (auditGate p.license = false → p.queue_audit_event n kwargs = p) ∧
    (auditGate p.license = true →
      (p.queue_audit_event n kwargs).event_queue =
        p.event_queue ++
          [{ audit_event_type := n
             inputs := kwargs.filter (fun kv => allowedAuditKeys.contains kv.1) }] ∧
      (∀ (k : String) (v : PyVal),
        (k, v) ∈ kwargs.filter (fun kv => allowedAuditKeys.contains kv.1) ↔
          (k, v) ∈ kwargs ∧ k ∈ allowedAuditKeys)) := by
  cases hl : p.license with
  | none =>
    constructor
    · intro _
      simp [KeeperParams.queue_audit_event, hl]
    · intro hg
      simp [auditGate] at hg
  | some lic =>
    cases ht : pyTruthy (PyVal.dict lic) with
    | false =>
      constructor
      · intro _
        simp [KeeperParams.queue_audit_event, hl, ht]
      · intro hg
        simp only [auditGate] at hg
        rw [ht] at hg
        simp at hg
    | true =>
      cases ha : lookupPy lic "account_type" with
      | none =>
        constructor
        · intro _
          simp [KeeperParams.queue_audit_event, hl, ht, ha]
        · intro hg
          simp only [auditGate] at hg
          rw [ht, ha] at hg
          simp at hg
      | some v =>
        cases hv : pyEqInt v 2 with
        | false =>
          constructor
          · intro _
            simp [KeeperParams.queue_audit_event, hl, ht, ha, hv]
          · intro hg
            simp only [auditGate] at hg
            rw [ht, ha] at hg
            simp [hv] at hg
        | true =>
          constructor
          · intro hg
            simp only [auditGate] at hg
            rw [ht, ha] at hg
            simp [hv] at hg
          · intro _
            constructor
            · simp [KeeperParams.queue_audit_event, hl, ht, ha, hv]
            · intro k v2
              simp [List.mem_filter]

/-- Claim C4 witness: with an enterprise license, queueing an audit
event with one allow-listed attribute and one other attribute appends a
single record that keeps only the allow-listed key. -/
theorem queue_audit_event_witness :
    (pEnterprise.queue_audit_event "open_record"
        [("record_uid", PyVal.str "abc"), ("color", PyVal.str "red")]).event_queue =
      pEnterprise.event_queue ++
        [{ audit_event_type := "open_record"
           inputs := [("record_uid", PyVal.str "abc"), ("color", PyVal.str "red")].filter
             (fun kv => allowedAuditKeys.contains kv.1) }] :=
  ((queue_audit_event_spec pEnterprise "open_record"
      [("record_uid", PyVal.str "abc"), ("color", PyVal.str "red")]).2 rfl).1

/-- Helper: `overlayDebug` leaves `user` unchanged. -/
theorem overlayDebug_user (p : KeeperParams) (opts : Opts) :
    (overlayDebug p opts).user = p.user := by
  unfold overlayDebug
  split <;> rfl

/-- Helper: `overlayDebug` leaves `password` unchanged. -/
theorem overlayDebug_password (p : KeeperParams) (opts : Opts) :
    (overlayDebug p opts).password = p.password := by
  unfold overlayDebug
  split <;> rfl

/-- Helper: `overlayDebug` leaves `batch_mode` unchanged. -/
theorem overlayDebug_batch_mode (p : KeeperParams) (opts : Opts) :
    (overlayDebug p opts).batch_mode = p.batch_mode := by
  unfold overlayDebug
  split <;> rfl

/-- Helper: `overlayDebug` leaves `login_v3` unchanged. -/
theorem overlayDebug_login_v3 (p : KeeperParams) (opts : Opts) :
    (overlayDebug p opts).login_v3 = p.login_v3 := by
  unfold overlayDebug
  split <;> rfl

/-- Helper: `overlayDebug` leaves `server` unchanged. -/
theorem overlayDebug_server (p : KeeperParams) (opts : Opts) :
    (overlayDebug p opts).server = p.server := by
  unfold overlayDebug
  split <;> rfl

/-- Helper: `overlayBatch` leaves `user` unchanged. -/
theorem overlayBatch_user (p : KeeperParams) (opts : Opts) :
    (overlayBatch p opts).user = p.user := by
  unfold overlayBatch
  split <;> rfl

/-- Helper: `overlayBatch` leaves `password` unchanged. -/
theorem overlayBatch_password (p : KeeperParams) (opts : Opts) :
    (overlayBatch p opts).password = p.password := by
  unfold overlayBatch
  split <;> rfl

/-- Helper: `overlayBatch` leaves `login_v3` unchanged. -/
theorem overlayBatch_login_v3 (p : KeeperParams) (opts : Opts) :
    (overlayBatch p opts).login_v3 = p.login_v3 := by
  unfold overlayBatch
  split <;> rfl

/-- Helper: `overlayBatch` leaves `debug` unchanged. -/
theorem overlayBatch_debug (p : KeeperParams) (opts : Opts) :
    (overlayBatch p opts).debug = p.debug := by
  unfold overlayBatch
  split <;> rfl

/-- Helper: `overlayBatch` leaves `server` unchanged. -/
theorem overlayBatch_server (p : KeeperParams) (opts : Opts) :
    (overlayBatch p opts).server = p.server := by
  unfold overlayBatch
  split <;> rfl

/-- Helper: `overlayLoginV3` leaves `user` unchanged. -/
theorem overlayLoginV3_user (p : KeeperParams) (opts : Opts) :
    (overlayLoginV3 p opts).user = p.user := by
  unfold overlayLoginV3
  split <;> rfl

/-- Helper: `overlayLoginV3` leaves `password` unchanged. -/
theorem overlayLoginV3_password (p : KeeperParams) (opts : Opts) :
    (overlayLoginV3 p opts).password = p.password := by
  unfold overlayLoginV3
  split <;> rfl

/-- Helper: `overlayLoginV3` leaves `batch_mode` unchanged. -/
theorem overlayLoginV3_batch_mode (p : KeeperParams) (opts : Opts) :
    (overlayLoginV3 p opts).batch_mode = p.batch_mode := by
  unfold overlayLoginV3
  split <;> rfl

/-- Helper: `overlayLoginV3` leaves `debug` unchanged. -/
theorem overlayLoginV3_debug (p : KeeperParams) (opts : Opts) :
    (overlayLoginV3 p opts).debug = p.debug := by
  unfold overlayLoginV3
  split <;> rfl

/-- Helper: `overlayLoginV3` leaves `server` unchanged. -/
theorem overlayLoginV3_server (p : KeeperParams) (opts : Opts) :
    (overlayLoginV3 p opts).server = p.server := by
  unfold overlayLoginV3
  split <;> rfl

/-- Helper: `overlayUser` leaves `password` unchanged. -/
theorem overlayUser_password (p : KeeperParams) (opts : Opts) :
    (overlayUser p opts).password = p.password := by
  unfold overlayUser
  split <;> rfl

/-- Helper: `overlayUser` leaves `batch_mode` unchanged. -/
theorem overlayUser_batch_mode (p : KeeperParams) (opts : Opts) :
    (overlayUser p opts).batch_mode = p.batch_mode := by
  unfold overlayUser
  split <;> rfl

/-- Helper: `overlayUser` leaves `login_v3` unchanged. -/
theorem overlayUser_login_v3 (p : KeeperParams) (opts : Opts) :
    (overlayUser p opts).login_v3 = p.login_v3 := by
  unfold overlayUser
  split <;> rfl

/-- Helper: `overlayUser` leaves `debug` unchanged. -/
theorem overlayUser_debug (p : KeeperParams) (opts : Opts) :
    (overlayUser p opts).debug = p.debug := by
  unfold overlayUser
  split <;> rfl

/-- Helper: `overlayUser` leaves `server` unchanged. -/
theorem overlayUser_server (p : KeeperParams) (opts : Opts) :
    (overlayUser p opts).server = p.server := by
  unfold overlayUser
  split <;> rfl

/-- Helper: the `debug` field after the debug overlay. -/
theorem overlayDebug_debug (p : KeeperParams) (opts : Opts) :
    (overlayDebug p opts).debug = (opts.debug || p.debug) := by
  unfold overlayDebug
  cases opts.debug <;> rfl

/-- Helper: the `batch_mode` field after the batch overlay. -/
theorem overlayBatch_batch_mode (p : KeeperParams) (opts : Opts) :
    (overlayBatch p opts).batch_mode = (opts.batch_mode || p.batch_mode) := by
  unfold overlayBatch
  cases opts.batch_mode <;> rfl

/-- Helper: the `login_v3` field after the login-v3 overlay. -/
theorem overlayLoginV3_login_v3 (p : KeeperParams) (opts : Opts) :
    (overlayLoginV3 p opts).login_v3 =
      (match truthyOpt opts.login_v3 with
       | some s => pyStartsWith "TRUE" (pyUpper s)
       | Option.none => p.login_v3) := by
  unfold overlayLoginV3
  rcases truthyOpt opts.login_v3 with _ | s <;> rfl

/-- Helper: the `user` field after the user overlay. -/
theorem overlayUser_user (p : KeeperParams) (opts : Opts) :
    (overlayUser p opts).user =
      (match truthyOpt opts.user with
       | some u => u
       | Option.none => p.user) := by
  unfold overlayUser
  rcases truthyOpt opts.user with _ | u <;> rfl

/-- Helper: `overlayPassword` leaves `user` unchanged. -/
theorem overlayPassword_user (p : KeeperParams) (opts : Opts) (envPwd : Option String) :
    (overlayPassword p opts envPwd).user = p.user := by
  unfold overlayPassword
  rcases truthyOpt opts.password with _ | w
  · rcases truthyOpt envPwd with _ | w2 <;> rfl
  · rfl

/-- Helper: `overlayPassword` leaves `batch_mode` unchanged. -/
theorem overlayPassword_batch_mode (p : KeeperParams) (opts : Opts) (envPwd : Option String) :
    (overlayPassword p opts envPwd).batch_mode = p.batch_mode := by
  unfold overlayPassword
  rcases truthyOpt opts.password with _ | w
  · rcases truthyOpt envPwd with _ | w2 <;> rfl
  · rfl

/-- Helper: `overlayPassword` leaves `login_v3` unchanged. -/
theorem overlayPassword_login_v3 (p : KeeperParams) (opts : Opts) (envPwd : Option String) :
    (overlayPassword p opts envPwd).login_v3 = p.login_v3 := by
  unfold overlayPassword
  rcases truthyOpt opts.password with _ | w
  · rcases truthyOpt envPwd with _ | w2 <;> rfl
  · rfl

/-- Helper: `overlayPassword` leaves `debug` unchanged. -/
theorem overlayPassword_debug (p : KeeperParams) (opts : Opts) (envPwd : Option String) :
    (overlayPassword p opts envPwd).debug = p.debug := by
  unfold overlayPassword
  rcases truthyOpt opts.password with _ | w
  · rcases truthyOpt envPwd with _ | w2 <;> rfl
  · rfl

/-- Helper: `overlayPassword` leaves `server` unchanged. -/
theorem overlayPassword_server (p : KeeperParams) (opts : Opts) (envPwd : Option String) :
    (overlayPassword p opts envPwd).server = p.server := by
  unfold overlayPassword
  rcases truthyOpt opts.password with _ | w
  · rcases truthyOpt envPwd with _ | w2 <;> rfl
  · rfl

/-- Helper: the `password` field after the password overlay. -/
theorem overlayPassword_password (p : KeeperParams) (opts : Opts) (envPwd : Option String) :
    (overlayPassword p opts envPwd).password =
      (match truthyOpt opts.password with
       | some w => w
       | Option.none =>
         match truthyOpt envPwd with
         | some w => w
         | Option.none => p.password) := by
  unfold overlayPassword
  rcases truthyOpt opts.password with _ | w
  · rcases truthyOpt envPwd with _ | w2 <;> rfl
  · rfl

/-- Helper: field values after the no-server overlay pipeline, on an
arbitrary starting store. -/
theorem pipeline_fields (p : KeeperParams) (opts : Opts) (envPwd : Option String) :
    (pipelineNoServer p opts envPwd).user =
      (match truthyOpt opts.user with
       | some u => u
       | Option.none => p.user) ∧
    (pipelineNoServer p opts envPwd).password =
      (match truthyOpt opts.password with
       | some w => w
       | Option.none =>
         match truthyOpt envPwd with
         | some w => w
         | Option.none => p.password) ∧
    (pipelineNoServer p opts envPwd).batch_mode = (opts.batch_mode || p.batch_mode) ∧
    (pipelineNoServer p opts envPwd).login_v3 =
      (match truthyOpt opts.login_v3 with
       | some s => pyStartsWith "TRUE" (pyUpper s)
       | Option.none => p.login_v3) ∧
    (pipelineNoServer p opts envPwd).debug = (opts.debug || p.debug) ∧
    (pipelineNoServer p opts envPwd).server = p.server := by
  unfold pipelineNoServer
  refine ⟨?_, ?_, ?_, ?_, ?_, ?_⟩ <;>
    simp only [overlayPassword_user, overlayPassword_password, overlayPassword_batch_mode,
      overlayPassword_login_v3, overlayPassword_debug, overlayPassword_server,
      overlayUser_user, overlayUser_password, overlayUser_batch_mode, overlayUser_login_v3,
      overlayUser_debug, overlayUser_server,
      overlayLoginV3_user, overlayLoginV3_password, overlayLoginV3_batch_mode,
      overlayLoginV3_login_v3, overlayLoginV3_debug, overlayLoginV3_server,
      overlayBatch_user, overlayBatch_password, overlayBatch_batch_mode, overlayBatch_login_v3,
      overlayBatch_debug, overlayBatch_server,
      overlayDebug_user, overlayDebug_password, overlayDebug_batch_mode, overlayDebug_login_v3,
      overlayDebug_debug, overlayDebug_server]

/-- Helper: when the `--server` flag is absent, the overlay block reduces
to the pure pipeline and cannot raise. -/
theorem overlays_no_server (p : KeeperParams) (opts : Opts) (envPwd : Option String)
    (h : truthyOpt opts.server = Option.none) :
    applyOverlays p opts envPwd = .ok (pipelineNoServer p opts envPwd) := by
  unfold applyOverlays pipelineNoServer
  rw [h]

/-- Claim C5 as amended: with no `--server` flag, the overlay yields a
store where, per field, the flag value wins when present, then the
environment (`KEEPER_PASSWORD`, for the password only), then the
persisted configuration, with these transformations: the flag `user` is
stored verbatim while a config-only `user` is lowercased by the
constructor; the store's `debug` equals the flag alone, a config-only
`debug=true` being dropped by the constructor; `login_v3` from the flag
is parsed as a bool-like prefix of TRUE; the stored `server` is the
constructor's region-resolved base URL, untouched by the overlay.  With
a truthy `--server` flag the overlay raises through the broken `server`
setter. -/
theorem overlay_precedence_amended (cfg : CtorArgs) (opts : Opts) (envPwd : Option String)
    (p0 : KeeperParams) (h0 : KeeperParams.init cfg = .ok p0) :
    (truthyOpt opts.server = Option.none →
      applyOverlays p0 opts envPwd = .ok (pipelineNoServer p0 opts envPwd) ∧
      (pipelineNoServer p0 opts envPwd).user =
        (match truthyOpt opts.user with
         | some u => u
         | Option.none => pyLower cfg.user) ∧
      (pipelineNoServer p0 opts envPwd).password =
        (match truthyOpt opts.password with
         | some w => w
         | Option.none =>
           match truthyOpt envPwd with
           | some w => w
           | Option.none => cfg.password) ∧
      (pipelineNoServer p0 opts envPwd).batch_mode = (opts.batch_mode || cfg.batch_mode) ∧
      (pipelineNoServer p0 opts envPwd).login_v3 =
        (match truthyOpt opts.login_v3 with
         | some s => pyStartsWith "TRUE" (pyUpper s)
         | Option.none => cfg.login_v3) ∧
      (pipelineNoServer p0 opts envPwd).debug = opts.debug ∧
      (pipelineNoServer p0 opts envPwd).server = p0.server) ∧
    (∀ h, truthyOpt opts.server = some h →
      applyOverlays p0 opts envPwd =
        .error "AttributeError: property server_base has no setter") := by
  obtain ⟨hu0, hp0, hb0, hl0, hd0, _, _⟩ := init_ok_fields cfg p0 h0
  obtain ⟨hu, hp, hb, hl, hd, hs⟩ := pipeline_fields p0 opts envPwd
  constructor
  · intro hnone
    refine ⟨overlays_no_server p0 opts envPwd hnone, ?_, ?_, ?_, ?_, ?_, hs⟩
    · rw [hu, hu0]
    · rw [hp, hp0]
    · rw [hb, hb0]
    · rw [hl, hl0]
    · rw [hd, hd0, Bool.or_false]
  · intro h hsome
    unfold applyOverlays
    rw [hsome]
    rfl

/-- Claim C5 witness: on `cfgPrecedence` with flags `--user Flag@User
--debug --login-v3 false` and environment password `envpw`, the overlay
succeeds and the flag values win over config, the environment password
wins over the config password, the flag user is kept verbatim, and the
bool-like flag disables `login_v3`. -/
theorem overlay_precedence_witness :
    applyOverlays p0Precedence optsPrecedence (some "envpw") = .ok pPrecedence ∧
    pPrecedence.user = "Flag@User" ∧
    pPrecedence.password = "envpw" ∧
    pPrecedence.batch_mode = false ∧
    pPrecedence.login_v3 = false ∧
    pPrecedence.debug = true := by
  have h := (overlay_precedence_amended cfgPrecedence optsPrecedence (some "envpw")
    p0Precedence rfl).1 rfl
  exact ⟨h.1, h.2.1, h.2.2.1, h.2.2.2.1, h.2.2.2.2.1, h.2.2.2.2.2.1⟩

/-- Claim C5 counterexample: with fields set only by the persisted
configuration (no flags, no environment), the resulting store does not
equal the config values: a config `debug=true` yields `debug=false`, a
mixed-case config user is lowercased, and a config `server` naming an
unknown host is replaced by the default region base URL. -/
theorem overlay_precedence_counterexample :
    applyOverlays p0ConfigOnly {} Option.none = .ok p0ConfigOnly ∧
    cfgConfigOnly.debug = true ∧
    p0ConfigOnly.debug = false ∧
    cfgConfigOnly.user = "Alice@Example.COM" ∧
    p0ConfigOnly.user = "alice@example.com" ∧
    ("alice@example.com" : String) ≠ "Alice@Example.COM" ∧
    cfgConfigOnly.server = some "https://my.example.org/" ∧
    p0ConfigOnly.server = "https://keepersecurity.com/api/rest/" ∧
    ("https://keepersecurity.com/api/rest/" : String) ≠ "https://my.example.org/" :=
  ⟨rfl, rfl, rfl, rfl, rfl, by decide, rfl, rfl, by decide⟩
